import Mathlib

/-!
Verification of the MyDojo repository (honzamach/mydojo).

Shallow embeddings of:
  - the database bootstrap shell script (creates a PostgreSQL role and
    two databases),
  - the WSGI entry point argument contract,
  - the Gruntfile vendoring task,
  - the client-side JavaScript module (param builder, csag registry),
  - the Jinja site macros rendering the main navbar and the action menus.

Each embedding is translated from the corresponding source file; theorems
settle the frozen claims about those sources.
-/

namespace MydojoInit

/-- State of the PostgreSQL catalogs the script queries: the lines reported
by the user-name query and by the database-name query. -/
structure PgState where
  users : List String
  dbs   : List String
deriving DecidableEq, Repr

/-- SQL statements the script can issue (besides the read-only catalog
queries). -/
inductive PgCmd where
  | createUser (u p : String)
  | createDb (d : String)
  | grantAll (d u : String)
deriving DecidableEq, Repr

/-- The script pipes a catalog query into grep: grep succeeds when some
output line contains the pattern as a contiguous substring. -/
def grepFinds (pat : String) (lines : List String) : Bool :=
  lines.any fun l => decide (pat.toList <:+: l.toList)

/-- Resolution of a positional bash parameter with a default, as in the
form dollar-brace-n-colon-dash-default: the default is used when the
parameter is unset or empty. -/
def argOr (args : List String) (i : Nat) (dflt : String) : String :=
  match args.get? i with
  | some s => if s = "" then dflt else s
  | none => dflt

/-- USER, first positional parameter, default mydojo. -/
def USER (args : List String) : String := argOr args 0 "mydojo"

/-- PASS, second positional parameter, default mydojo. -/
def PASS (args : List String) : String := argOr args 1 "mydojo"

/-- DBNM, third positional parameter, default mydojo. -/
def DBNM (args : List String) : String := argOr args 2 "mydojo"

/-- First conditional block of the script: query user names, grep for the
user; when grep fails, CREATE USER with the password. -/
def userStep (u p : String) (st : PgState) : List PgCmd × PgState :=
  if grepFinds u st.users then ([], st)
  else ([PgCmd.createUser u p], { st with users := st.users ++ [u] })

/-- One iteration of the for-loop over database names: query database
names, grep for the name; when grep fails, CREATE DATABASE then GRANT ALL
PRIVILEGES on it to the user. -/
def dbStep (u d : String) (st : PgState) : List PgCmd × PgState :=
  if grepFinds d st.dbs then ([], st)
  else ([PgCmd.createDb d, PgCmd.grantAll d u],
        { st with dbs := st.dbs ++ [d] })

/-- The whole script: resolve the three parameters, run the user block,
then the for-loop over the two names DBNM and DBNM followed by "_test"
(the loop unrolled to its two iterations). Returns the issued statements
in order together with the final catalog state. -/
def runScript (args : List String) (st : PgState) : List PgCmd × PgState :=
  let u := USER args
  let p := PASS args
  let d := DBNM args
  let r1 := userStep u p st
  let r2 := dbStep u d r1.2
  let r3 := dbStep u (d ++ "_test") r2.2
  (r1.1 ++ r2.1 ++ r3.1, r3.2)

theorem grepFinds_append (pat : String) (ls ms : List String) :
    grepFinds pat (ls ++ ms) = (grepFinds pat ls || grepFinds pat ms) := by
  simp [grepFinds, List.any_append]

theorem grepFinds_self (p : String) : grepFinds p [p] = true := by
  simp [grepFinds]

theorem infix_length_le {α : Type} {l₁ l₂ : List α} (h : l₁ <:+: l₂) :
    l₁.length ≤ l₂.length := h.length_le

theorem grepFinds_longer_single (d suf : String) (hs : suf ≠ "") :
    grepFinds (d ++ suf) [d] = false := by
  simp only [grepFinds, List.any_cons, List.any_nil, Bool.or_false]
  rw [decide_eq_false_iff_not]
  intro h
  have hlen := infix_length_le h
  have hd : (d ++ suf).toList = d.toList ++ suf.toList := by
    simp [String.toList]
  rw [hd, List.length_append] at hlen
  have : suf.toList.length = 0 := by omega
  have h0 : suf.toList = [] := List.length_eq_zero.mp this
  exact hs (String.ext h0)

theorem userStep_post_users (u p : String) (st : PgState) :
    grepFinds u (userStep u p st).2.users = true := by
  unfold userStep
  by_cases h : grepFinds u st.users = true
  · simp [h]
  · simp only [Bool.not_eq_true] at h
    simp [h, grepFinds_append, grepFinds_self]

theorem userStep_dbs (u p : String) (st : PgState) :
    (userStep u p st).2.dbs = st.dbs := by
  unfold userStep
  by_cases h : grepFinds u st.users = true <;> simp [h]

theorem dbStep_users (u d : String) (st : PgState) :
    (dbStep u d st).2.users = st.users := by
  unfold dbStep
  by_cases h : grepFinds d st.dbs = true <;> simp [h]

theorem dbStep_post_dbs (u d : String) (st : PgState) :
    grepFinds d (dbStep u d st).2.dbs = true := by
  unfold dbStep
  by_cases h : grepFinds d st.dbs = true
  · simp [h]
  · simp only [Bool.not_eq_true] at h
    simp [h, grepFinds_append, grepFinds_self]

theorem dbStep_mono (u d x : String) (st : PgState)
    (h : grepFinds x st.dbs = true) :
    grepFinds x (dbStep u d st).2.dbs = true := by
  unfold dbStep
  by_cases hg : grepFinds d st.dbs = true
  · simp [hg, h]
  · simp only [Bool.not_eq_true] at hg
    simp [hg, grepFinds_append, h]

theorem runScript_noop (args : List String) (st : PgState)
    (hu : grepFinds (USER args) st.users = true)
    (hd : grepFinds (DBNM args) st.dbs = true)
    (ht : grepFinds (DBNM args ++ "_test") st.dbs = true) :
    runScript args st = ([], st) := by
  unfold runScript userStep dbStep
  simp [hu, hd, ht]

/-- C3: with zero to three positional arguments the user name, password and
database-name base default to mydojo; from a catalog state in which none of
the requested names is already reported, the script issues exactly CREATE
USER for the user and, for each of the two databases DBNM and DBNM_test, a
CREATE DATABASE followed by a GRANT ALL PRIVILEGES to the user. -/
theorem mydojo_init_creates_user_and_two_dbs
    (args : List String) (st : PgState)
    (hu : grepFinds (USER args) st.users = false)
    (hd : grepFinds (DBNM args) st.dbs = false)
    (ht : grepFinds (DBNM args ++ "_test") st.dbs = false) :
    runScript args st =
      ([PgCmd.createUser (USER args) (PASS args),
        PgCmd.createDb (DBNM args),
        PgCmd.grantAll (DBNM args) (USER args),
        PgCmd.createDb (DBNM args ++ "_test"),
        PgCmd.grantAll (DBNM args ++ "_test") (USER args)],
       { users := st.users ++ [USER args],
         dbs := st.dbs ++ [DBNM args, DBNM args ++ "_test"] })
    ∧ USER [] = "mydojo" ∧ PASS [] = "mydojo" ∧ DBNM [] = "mydojo"
    ∧ (∀ u, u ≠ "" → USER [u] = u ∧ PASS [u] = "mydojo" ∧ DBNM [u] = "mydojo") := by
  refine ⟨?_, rfl, rfl, rfl, ?_⟩
  · have ht2 : grepFinds (DBNM args ++ "_test") (st.dbs ++ [DBNM args]) = false := by
      rw [grepFinds_append, ht, grepFinds_longer_single (DBNM args) "_test" (by decide)]
      rfl
    unfold runScript userStep dbStep
    simp [hu, hd, ht2]
  · intro u hu'
    refine ⟨?_, rfl, rfl⟩
    simp [USER, argOr, hu']

/-- Witness for C3 at the default invocation on an empty catalog. -/
theorem mydojo_init_creates_user_and_two_dbs_witness :
    runScript [] ⟨[], []⟩ =
      ([PgCmd.createUser "mydojo" "mydojo",
        PgCmd.createDb "mydojo", PgCmd.grantAll "mydojo" "mydojo",
        PgCmd.createDb "mydojo_test", PgCmd.grantAll "mydojo_test" "mydojo"],
       ⟨["mydojo"], ["mydojo", "mydojo_test"]⟩) :=
  (mydojo_init_creates_user_and_two_dbs [] ⟨[], []⟩
    (by decide) (by decide) (by decide)).1

/-- C7: when the catalog queries already report the requested user name and
both database names, a run issues no statement and leaves the state
unchanged; moreover a second run after any first run issues no statement and
leaves the first run's final state unchanged. -/
theorem mydojo_init_idempotent (args : List String) (st : PgState) :
    ((grepFinds (USER args) st.users = true ∧
      grepFinds (DBNM args) st.dbs = true ∧
      grepFinds (DBNM args ++ "_test") st.dbs = true) →
        runScript args st = ([], st))
    ∧ runScript args (runScript args st).2 = ([], (runScript args st).2) := by
  constructor
  · intro ⟨hu, hd, ht⟩
    exact runScript_noop args st hu hd ht
  · apply runScript_noop
    · show grepFinds (USER args)
        (dbStep _ _ (dbStep _ _ (userStep _ _ st).2).2).2.users = true
      rw [dbStep_users, dbStep_users]
      exact userStep_post_users _ _ _
    · show grepFinds (DBNM args)
        (dbStep _ _ (dbStep _ _ (userStep _ _ st).2).2).2.dbs = true
      exact dbStep_mono _ _ _ _ (dbStep_post_dbs _ _ _)
    · exact dbStep_post_dbs _ _ _

/-- Witness for C7 on a catalog already holding the default names. -/
theorem mydojo_init_idempotent_witness :
    runScript [] ⟨["mydojo"], ["mydojo", "mydojo_test"]⟩ =
      ([], ⟨["mydojo"], ["mydojo", "mydojo_test"]⟩) :=
  (mydojo_init_idempotent [] ⟨["mydojo"], ["mydojo", "mydojo_test"]⟩).1
    ⟨by decide, by decide, by decide⟩

end MydojoInit

namespace MydojoMain

/-- JavaScript values that can appear in the module: undefined, null,
ordinary data values, and the members every object literal inherits from
the Object prototype (functions such as toString). -/
inductive JSVal where
  | undef
  | null
  | boolVal (b : Bool)
  | numVal (n : Int)
  | strVal (s : String)
  | builtinFn (name : String)
deriving DecidableEq, Repr

/-- A plain JavaScript object: own string-keyed properties in insertion
order (the first binding for a key is its current value). -/
abbrev Obj := List (String × JSVal)

/-- An object reference: JavaScript objects are passed and stored by
reference, so the heap maps references to property records. -/
abbrev Ref := Nat

/-- The heap of objects. -/
abbrev Heap := Ref → Obj

/-- Property read on a plain object: the value under the key, undefined
when the key is absent. -/
def getProp (o : Obj) (k : String) : JSVal :=
  (o.lookup k).getD JSVal.undef

/-- Property assignment on a plain object: bind the key to the value,
shadowing any previous binding (the record keeps the newest binding first
and getProp reads the first one). -/
def setProp (o : Obj) (k : String) (v : JSVal) : Obj :=
  (k, v) :: o

/-- A rule is an array whose element 0 names the parameter to set; reading
element 0 of an empty array yields undefined, which as a property key is
the string "undefined". -/
def ruleKey (r : List String) : String := r.headD "undefined"

/-- The closure state captured by _build_param_builder: the skeleton object
reference is stored as-is (the copying variant is commented out in the
source), together with the rule list. -/
structure ParamBuilder where
  skeleton : Ref
  rules : List (List String)

/-- _build_param_builder from mydojo-main.js: capture the skeleton
reference and the rules and return the builder closure. -/
def _build_param_builder (skeleton : Ref) (rules : List (List String)) :
    ParamBuilder :=
  { skeleton := skeleton, rules := rules }

/-- The forEach loop in the returned closure: assign the value to the key
of each rule in order, on the object aliased by _result. -/
def assignAll (o : Obj) (rules : List (List String)) (v : JSVal) : Obj :=
  rules.foldl (fun acc r => setProp acc (ruleKey r) v) o

/-- One call of the builder closure: _result aliases the captured skeleton
(no copy), every rule key is assigned the value, and _result is returned.
The heap is updated at the skeleton reference only. -/
def applyBuilder (b : ParamBuilder) (v : JSVal) (h : Heap) : Heap × Ref :=
  let o := assignAll (h b.skeleton) b.rules v
  (fun r => if r = b.skeleton then o else h r, b.skeleton)

/-- Exceptions a JavaScript expression could raise. -/
inductive JSErr where
  | typeError
deriving DecidableEq

/-- The member names every plain object literal inherits from the Object
prototype. -/
def objectProtoNames : List String :=
  ["constructor", "hasOwnProperty", "isPrototypeOf",
   "propertyIsEnumerable", "toLocaleString", "toString", "valueOf",
   "__defineGetter__", "__defineSetter__", "__lookupGetter__",
   "__lookupSetter__", "__proto__"]

/-- Full JavaScript property read on the registry object literal: own
properties first, then the prototype chain of the literal (the Object
prototype), and undefined only when neither binds the name. -/
def propGet (o : Obj) (k : String) : JSVal :=
  match o.lookup k with
  | some v => v
  | none =>
    if objectProtoNames.contains k then JSVal.builtinFn k else JSVal.undef

/-- Property access on the registry inside the try block: on a plain
object literal (not null, no accessors) a property read cannot raise, so
the access always returns normally. -/
def propGetE (o : Obj) (k : String) : Except JSErr JSVal :=
  Except.ok (propGet o k)

/-- get_csag from mydojo-main.js: return the registry entry under the
name; the catch branch would return null were the read to raise. -/
def get_csag (reg : Obj) (name : String) : JSVal :=
  match propGetE reg name with
  | Except.ok v => v
  | Except.error _ => JSVal.null

end MydojoMain

namespace MydojoWsgi

/-- The keyword arguments accepted by the application factory
create_app_full, as passed in bin/mydojo.wsgi. -/
structure CreateAppFullArgs where
  config_object : String
  config_file : String
  config_env : String
deriving DecidableEq, Repr

/-- The argument record of the single factory call that builds the module
level application object in bin/mydojo.wsgi. -/
def application_args : CreateAppFullArgs :=
  { config_object := "mydojo.config.ProductionConfig"
    config_file := "/etc/mydojo/mydojo.conf"
    config_env := "FLASK_CONFIG_FILE" }

/-- C4: the WSGI entry point calls the factory with exactly the named
configuration class, the configuration file path, and the environment
variable that names that path. -/
theorem wsgi_application_factory_args :
    application_args.config_object = "mydojo.config.ProductionConfig"
    ∧ application_args.config_file = "/etc/mydojo/mydojo.conf"
    ∧ application_args.config_env = "FLASK_CONFIG_FILE" :=
  ⟨rfl, rfl, rfl⟩

end MydojoWsgi

namespace MydojoMain

theorem getProp_setProp_same (o : Obj) (k : String) (v : JSVal) :
    getProp (setProp o k v) k = v := by
  simp [getProp, setProp, List.lookup]

theorem getProp_setProp_ne (o : Obj) (k k' : String) (v : JSVal)
    (h : k' ≠ k) : getProp (setProp o k v) k' = getProp o k' := by
  have h1 : (k' == k) = false := by
    rw [beq_eq_false_iff_ne]
    exact h
  simp [getProp, setProp, List.lookup, h1]

theorem assignAll_cons (o : Obj) (r : List String)
    (rs : List (List String)) (v : JSVal) :
    assignAll o (r :: rs) v = assignAll (setProp o (ruleKey r) v) rs v := rfl

theorem getProp_assignAll_not_mem (o : Obj) (rules : List (List String))
    (v : JSVal) (k : String) (h : ∀ r ∈ rules, ruleKey r ≠ k) :
    getProp (assignAll o rules v) k = getProp o k := by
  induction rules generalizing o with
  | nil => rfl
  | cons r rs ih =>
    rw [assignAll_cons, ih _ fun q hq => h q (List.mem_cons_of_mem r hq),
      getProp_setProp_ne _ _ _ _ fun hk => h r (List.mem_cons_self r rs) hk.symm]

theorem getProp_assignAll_mem (o : Obj) (rules : List (List String))
    (v : JSVal) (k : String) (hex : ∃ r ∈ rules, ruleKey r = k) :
    getProp (assignAll o rules v) k = v := by
  induction rules generalizing o with
  | nil => obtain ⟨r, hr, _⟩ := hex; cases hr
  | cons q qs ih =>
    rw [assignAll_cons]
    by_cases hqs : ∃ r' ∈ qs, ruleKey r' = k
    · exact ih _ hqs
    · obtain ⟨r, hr, hk⟩ := hex
      push_neg at hqs
      rcases List.mem_cons.mp hr with h | h
      · have hqk : ruleKey q = k := h ▸ hk
        rw [getProp_assignAll_not_mem _ _ _ _ hqs, ← hqk,
          getProp_setProp_same]
      · exact absurd hk (hqs r h)

/-- C8: a builder built from a skeleton and rules, applied to a value,
returns the skeleton object itself (no copy); in it every rule key is
bound to the value, every other key keeps its previous value, every other
object is untouched, and a later call to a builder sharing the skeleton
preserves the earlier bindings unless its own rules overwrite them. -/
theorem param_builder_spec (skeleton : Ref) (rules : List (List String))
    (v : JSVal) (h : Heap) :
    (applyBuilder (_build_param_builder skeleton rules) v h).2 = skeleton
    ∧ (∀ r ∈ rules,
        getProp
          ((applyBuilder (_build_param_builder skeleton rules) v h).1
            (applyBuilder (_build_param_builder skeleton rules) v h).2)
          (ruleKey r) = v)
    ∧ (∀ k, (∀ r ∈ rules, ruleKey r ≠ k) →
        getProp
          ((applyBuilder (_build_param_builder skeleton rules) v h).1
            (applyBuilder (_build_param_builder skeleton rules) v h).2)
          k = getProp (h skeleton) k)
    ∧ (∀ q, q ≠ skeleton →
        (applyBuilder (_build_param_builder skeleton rules) v h).1 q = h q)
    ∧ (∀ rules₂ v₂ r, r ∈ rules → (∀ r₂ ∈ rules₂, ruleKey r₂ ≠ ruleKey r) →
        getProp
          ((applyBuilder (_build_param_builder skeleton rules₂) v₂
              (applyBuilder (_build_param_builder skeleton rules) v h).1).1
            skeleton)
          (ruleKey r) = v) := by
  refine ⟨rfl, ?_, ?_, ?_, ?_⟩
  · intro r hr
    simpa [applyBuilder, _build_param_builder] using
      getProp_assignAll_mem (h skeleton) rules v (ruleKey r) ⟨r, hr, rfl⟩
  · intro k hk
    simpa [applyBuilder, _build_param_builder] using
      getProp_assignAll_not_mem (h skeleton) rules v k hk
  · intro q hq
    simp [applyBuilder, _build_param_builder, hq]
  · intro rules₂ v₂ r hr hk
    have e : ((applyBuilder (_build_param_builder skeleton rules₂) v₂
          (applyBuilder (_build_param_builder skeleton rules) v h).1).1
            skeleton)
        = assignAll (assignAll (h skeleton) rules v) rules₂ v₂ := by
      simp [applyBuilder, _build_param_builder]
    rw [e, getProp_assignAll_not_mem _ _ _ _ hk]
    exact getProp_assignAll_mem (h skeleton) rules v (ruleKey r) ⟨r, hr, rfl⟩

/-- Witness for C8: a builder over skeleton 0 with the single rule key
page binds page to the value, keeps an unrelated key untouched, and the
binding survives a later call of a disjoint builder on the same object. -/
theorem param_builder_spec_witness :
    getProp
      ((applyBuilder (_build_param_builder 0 [["page"]])
          (JSVal.strVal "x") fun _ => []).1
        (applyBuilder (_build_param_builder 0 [["page"]])
          (JSVal.strVal "x") fun _ => []).2)
      "page" = JSVal.strVal "x"
    ∧ getProp
        ((applyBuilder (_build_param_builder 0 [["page"]])
            (JSVal.strVal "x") fun _ => []).1
          (applyBuilder (_build_param_builder 0 [["page"]])
            (JSVal.strVal "x") fun _ => []).2)
        "limit" = JSVal.undef
    ∧ getProp
        ((applyBuilder (_build_param_builder 0 [["limit"]])
            (JSVal.numVal 5)
            (applyBuilder (_build_param_builder 0 [["page"]])
              (JSVal.strVal "x") fun _ => []).1).1
          0)
        "page" = JSVal.strVal "x" :=
  ⟨(param_builder_spec 0 [["page"]] (JSVal.strVal "x") fun _ => []).2.1
      ["page"] (by decide),
   (param_builder_spec 0 [["page"]] (JSVal.strVal "x") fun _ => []).2.2.1
      "limit" (by decide),
   (param_builder_spec 0 [["page"]] (JSVal.strVal "x")
      fun _ => []).2.2.2.2 [["limit"]] (JSVal.numVal 5) ["page"]
      (by decide) (by decide)⟩

/-- C9 counterexample: on the empty registry the source initializes, the
name toString has no registered entry, yet get_csag returns the member
inherited from the Object prototype, which is neither undefined nor null,
refuting that every unregistered name yields undefined. -/
theorem get_csag_proto_counterexample :
    ([] : Obj).lookup "toString" = none
    ∧ get_csag [] "toString" = JSVal.builtinFn "toString"
    ∧ get_csag [] "toString" ≠ JSVal.undef := by
  refine ⟨rfl, rfl, by decide⟩

/-- C9 (amended): get_csag never reaches the catch branch: the try body
always returns normally; it yields the registered entry when the name is
bound, and for an unbound name it yields undefined unless the name is an
inherited Object prototype member, in which case that member is returned;
an unbound name never yields null. -/
theorem get_csag_never_throws (reg : Obj) (name : String) :
    propGetE reg name = Except.ok (get_csag reg name)
    ∧ (∀ v, reg.lookup name = some v → get_csag reg name = v)
    ∧ (reg.lookup name = none → objectProtoNames.contains name = false →
        get_csag reg name = JSVal.undef)
    ∧ (reg.lookup name = none → objectProtoNames.contains name = true →
        get_csag reg name = JSVal.builtinFn name)
    ∧ (reg.lookup name = none → get_csag reg name ≠ JSVal.null) := by
  refine ⟨rfl, ?_, ?_, ?_, ?_⟩
  · intro v hv
    simp [get_csag, propGetE, propGet, hv]
  · intro hn hp
    have hm : name ∉ objectProtoNames := fun hmem =>
      by rw [show objectProtoNames.contains name
          = objectProtoNames.elem name from rfl,
        List.elem_eq_true_of_mem hmem] at hp; cases hp
    simp [get_csag, propGetE, propGet, hn, hm]
  · intro hn hp
    have hm : name ∈ objectProtoNames :=
      List.mem_of_elem_eq_true hp
    simp [get_csag, propGetE, propGet, hn, hm]
  · intro hn
    by_cases hm : name ∈ objectProtoNames
    · simp [get_csag, propGetE, propGet, hn, hm]
    · simp [get_csag, propGetE, propGet, hn, hm]

/-- Witness for C9 on a one-entry registry: a bound name returns its
entry, an unbound plain name returns undefined, an unbound prototype
member name returns the inherited member. -/
theorem get_csag_never_throws_witness :
    get_csag [("x", JSVal.numVal 1)] "x" = JSVal.numVal 1
    ∧ get_csag [("x", JSVal.numVal 1)] "y" = JSVal.undef
    ∧ get_csag [("x", JSVal.numVal 1)] "valueOf"
        = JSVal.builtinFn "valueOf" :=
  ⟨(get_csag_never_throws [("x", JSVal.numVal 1)] "x").2.1 (JSVal.numVal 1)
      (by decide),
   (get_csag_never_throws [("x", JSVal.numVal 1)] "y").2.2.1
      (by decide) (by decide),
   (get_csag_never_throws [("x", JSVal.numVal 1)] "valueOf").2.2.2.1
      (by decide) (by decide)⟩

end MydojoMain

namespace MydojoGrunt

/-- A filesystem snapshot: files as path-content pairs. -/
abbrev Fs := List (String × String)

/-- One file block of the copy configuration: expand and flatten are set,
so files under cwd matching src are copied to dest under their base
names. -/
structure CopyEntry where
  cwd : String
  src : String
  dest : String
deriving DecidableEq, Repr

/-- The web_design_static path from the paths_project configuration. -/
def web_design_static : String := "mydojo/blueprints/design/static/"

/-- The seven file blocks of copy.vendor in the Gruntfile: Bootstrap CSS
and JS, FontAwesome CSS, JS and webfonts, jQuery, and Popper.js, each from
node_modules into the design blueprint vendor tree. -/
def vendor_blocks : List CopyEntry :=
  [⟨"node_modules/bootstrap/dist/css/", "./*",
    web_design_static ++ "vendor/bootstrap/css/"⟩,
   ⟨"node_modules/bootstrap/dist/js/", "./*",
    web_design_static ++ "vendor/bootstrap/js/"⟩,
   ⟨"node_modules/@fortawesome/fontawesome-pro/css/", "./**",
    web_design_static ++ "vendor/font-awesome/css/"⟩,
   ⟨"node_modules/@fortawesome/fontawesome-pro/js/", "./**",
    web_design_static ++ "vendor/font-awesome/js/"⟩,
   ⟨"node_modules/@fortawesome/fontawesome-pro/webfonts/", "./**",
    web_design_static ++ "vendor/font-awesome/webfonts/"⟩,
   ⟨"node_modules/jquery/dist/", "./**",
    web_design_static ++ "vendor/jquery/js/"⟩,
   ⟨"node_modules/popper.js/dist/", "./**",
    web_design_static ++ "vendor/popper/js/"⟩]

/-- Whether the first string is an initial segment of the second. -/
def strHasPref (p s : String) : Bool := decide (p.toList <+: s.toList)

/-- The base name of a path, as the flatten option keeps it: the part
after the last directory separator. -/
def baseName (p : String) : String :=
  String.mk ((p.toList.reverse.takeWhile fun c => c ≠ '/').reverse)

/-- Whether a file path is selected by a file block: it lies under cwd
and, for the non-recursive pattern dot-slash-star, its remainder holds no
further directory separator. -/
def matchEntry (e : CopyEntry) (p : String) : Bool :=
  strHasPref e.cwd p &&
    (e.src != "./*" || !((p.toList.drop e.cwd.toList.length).contains '/'))

/-- The files written by copy.vendor from a given filesystem: for each
block, each selected file lands at dest plus its base name. -/
def copyImage (fs : Fs) : Fs :=
  vendor_blocks.flatMap fun e =>
    fs.filterMap fun f =>
      if matchEntry e f.1 then some (e.dest ++ baseName f.1, f.2) else none

/-- Whether a file lies in the vendor directory of the design blueprint. -/
def isVendorPath (f : String × String) : Bool :=
  strHasPref (web_design_static ++ "vendor") f.1

/-- clean:vendor deletes the vendor directory of the design blueprint. -/
def cleanVendor (fs : Fs) : Fs :=
  fs.filter fun f => !isVendorPath f

/-- copy:vendor adds the copied files to the filesystem. -/
def copyVendor (fs : Fs) : Fs := fs ++ copyImage fs

/-- The four tasks the webui alias runs. -/
inductive GruntTask where
  | shellYarnInstall
  | shellPybabel
  | cleanVendorTask
  | copyVendorTask
deriving DecidableEq, Repr

/-- Task semantics: the two shell tasks are arbitrary filesystem effects
(package installation, dictionary compilation), clean and copy act as
above. -/
def runTask (yarnEff pybabelEff : Fs → Fs) : GruntTask → Fs → Fs
  | GruntTask.shellYarnInstall, fs => yarnEff fs
  | GruntTask.shellPybabel, fs => pybabelEff fs
  | GruntTask.cleanVendorTask, fs => cleanVendor fs
  | GruntTask.copyVendorTask, fs => copyVendor fs

/-- The task sequence registered for webui: yarn install, pybabel, then
clean:vendor, then copy:vendor. -/
def webui_tasks : List GruntTask :=
  [GruntTask.shellYarnInstall, GruntTask.shellPybabel,
   GruntTask.cleanVendorTask, GruntTask.copyVendorTask]

/-- Run a task list left to right. -/
def runTasks (yarnEff pybabelEff : Fs → Fs) (ts : List GruntTask)
    (fs : Fs) : Fs :=
  ts.foldl (fun s t => runTask yarnEff pybabelEff t s) fs

/-- The webui Grunt task. -/
def runWebui (yarnEff pybabelEff : Fs → Fs) (fs : Fs) : Fs :=
  runTasks yarnEff pybabelEff webui_tasks fs

/-- A sample node_modules tree holding one file of each vendored
library. -/
def sample_modules : Fs :=
  [("node_modules/bootstrap/dist/css/bootstrap.min.css", "c1"),
   ("node_modules/bootstrap/dist/js/bootstrap.min.js", "c2"),
   ("node_modules/@fortawesome/fontawesome-pro/css/all.css", "c3"),
   ("node_modules/@fortawesome/fontawesome-pro/js/all.js", "c4"),
   ("node_modules/@fortawesome/fontawesome-pro/webfonts/fa-solid-900.woff2",
    "c5"),
   ("node_modules/jquery/dist/jquery.min.js", "c6"),
   ("node_modules/popper.js/dist/popper.min.js", "c7")]

theorem head?_of_pref {α : Type} {l₁ l₂ : List α} (h : l₁ <+: l₂)
    (hne : l₁ ≠ []) : l₂.head? = l₁.head? := by
  obtain ⟨t, rfl⟩ := h
  cases l₁ with
  | nil => exact absurd rfl hne
  | cons a l => rfl

theorem filterMap_filter_of_isSome {α β : Type} (g : α → Option β)
    (keep : α → Bool) (l : List α)
    (h : ∀ f, (g f).isSome → keep f = true) :
    (l.filter keep).filterMap g = l.filterMap g := by
  induction l with
  | nil => rfl
  | cons a t ih =>
    by_cases hk : keep a = true
    · simp [List.filter_cons, hk, List.filterMap_cons, ih]
    · have hga : g a = none := by
        cases hg : g a with
        | none => rfl
        | some b => exact absurd (h a (by simp [hg])) hk
      have hk' : keep a = false := Bool.eq_false_iff.mpr hk
      simp [List.filter_cons, hk', List.filterMap_cons, hga, ih]

theorem filter_filter_not {α : Type} (pr : α → Bool) (l : List α) :
    (l.filter fun a => !pr a).filter pr = [] := by
  induction l with
  | nil => rfl
  | cons a t ih =>
    by_cases hp : pr a = true
    · simp [List.filter_cons, hp, ih]
    · have hp' : pr a = false := Bool.eq_false_iff.mpr hp
      simp [List.filter_cons, hp', ih]

theorem vendor_blocks_cwd_head :
    ∀ e ∈ vendor_blocks, e.cwd.toList.head? = some 'n' := by decide

theorem vendor_blocks_dest_pref :
    ∀ e ∈ vendor_blocks,
      strHasPref (web_design_static ++ "vendor") e.dest = true := by decide

theorem vendor_root_head :
    (web_design_static ++ "vendor").toList.head? = some 'm' := by decide

theorem matchEntry_not_vendor (e : CopyEntry) (he : e ∈ vendor_blocks)
    (p : String) (hm : matchEntry e p = true) :
    strHasPref (web_design_static ++ "vendor") p = false := by
  have hm' := hm
  simp only [matchEntry, Bool.and_eq_true] at hm'
  rw [Bool.eq_false_iff]
  intro hv
  have h1 : e.cwd.toList <+: p.toList := of_decide_eq_true hm'.1
  have h2 : (web_design_static ++ "vendor").toList <+: p.toList :=
    of_decide_eq_true hv
  have hn : e.cwd.toList ≠ [] := by
    intro h0
    rw [h0] at h1
    have := vendor_blocks_cwd_head e he
    rw [h0] at this
    cases this
  have hv' : (web_design_static ++ "vendor").toList ≠ [] := by decide
  have e1 := head?_of_pref h1 hn
  have e2 := head?_of_pref h2 hv'
  rw [vendor_blocks_cwd_head e he] at e1
  rw [vendor_root_head] at e2
  rw [e1] at e2
  cases e2

theorem bind_congr_mem {α β : Type} {l : List α} {f g : α → List β}
    (h : ∀ e ∈ l, f e = g e) : l.flatMap f = l.flatMap g := by
  induction l with
  | nil => rfl
  | cons a t ih =>
    simp only [List.flatMap_cons]
    rw [h a (List.mem_cons_self a t),
      ih fun e he => h e (List.mem_cons_of_mem a he)]

theorem copyImage_cleanVendor (fs : Fs) :
    copyImage (cleanVendor fs) = copyImage fs := by
  unfold copyImage cleanVendor
  apply bind_congr_mem
  intro e he
  apply filterMap_filter_of_isSome
  intro f hsome
  by_cases hm : matchEntry e f.1 = true
  · simp [isVendorPath, matchEntry_not_vendor e he f.1 hm]
  · rw [if_neg (by simpa using hm)] at hsome
    cases hsome

theorem vendor_blocks_dest_pref' (e : CopyEntry) (he : e ∈ vendor_blocks) :
    (web_design_static ++ "vendor").toList <+: e.dest.toList :=
  of_decide_eq_true (vendor_blocks_dest_pref e he)

theorem isVendorPath_copyImage (fs : Fs) (a : String × String)
    (ha : a ∈ copyImage fs) : isVendorPath a = true := by
  unfold copyImage at ha
  obtain ⟨e, he, hf⟩ := List.mem_flatMap.mp ha
  obtain ⟨f, _, hsome⟩ := List.mem_filterMap.mp hf
  by_cases hm : matchEntry e f.1 = true
  · rw [if_pos hm] at hsome
    have h1 : a = (e.dest ++ baseName f.1, f.2) := by
      injection hsome with h
      exact h.symm
    subst h1
    have h2 : (e.dest ++ baseName f.1).toList
        = e.dest.toList ++ (baseName f.1).toList := by
      simp [String.toList]
    unfold isVendorPath strHasPref
    rw [decide_eq_true_iff]
    show (web_design_static ++ "vendor").toList <+: (e.dest ++ baseName f.1).toList
    rw [h2]
    exact (vendor_blocks_dest_pref' e he).trans ⟨(baseName f.1).toList, rfl⟩
  · rw [if_neg (by simpa using hm)] at hsome
    cases hsome

/-- C5: after the webui task sequence the vendor tree of the design
blueprint holds exactly the files freshly copied by copy.vendor out of the
node_modules state left by the two shell tasks, whatever those tasks and
the initial filesystem were: the sequence applies yarn install, pybabel,
then clean:vendor, then copy:vendor, and on a sample node_modules tree the
copy places one file of each third-party library (Bootstrap CSS and JS,
FontAwesome CSS, JS and webfonts, jQuery, Popper.js) into its vendor
directory. -/
theorem grunt_webui_vendor_exact (yarnEff pybabelEff : Fs → Fs) (fs : Fs) :
    runWebui yarnEff pybabelEff fs
      = cleanVendor (pybabelEff (yarnEff fs))
        ++ copyImage (pybabelEff (yarnEff fs))
    ∧ (runWebui yarnEff pybabelEff fs).filter isVendorPath
      = copyImage (pybabelEff (yarnEff fs))
    ∧ copyImage sample_modules =
      [("mydojo/blueprints/design/static/vendor/bootstrap/css/bootstrap.min.css",
        "c1"),
       ("mydojo/blueprints/design/static/vendor/bootstrap/js/bootstrap.min.js",
        "c2"),
       ("mydojo/blueprints/design/static/vendor/font-awesome/css/all.css",
        "c3"),
       ("mydojo/blueprints/design/static/vendor/font-awesome/js/all.js",
        "c4"),
       ("mydojo/blueprints/design/static/vendor/font-awesome/webfonts/fa-solid-900.woff2",
        "c5"),
       ("mydojo/blueprints/design/static/vendor/jquery/js/jquery.min.js",
        "c6"),
       ("mydojo/blueprints/design/static/vendor/popper/js/popper.min.js",
        "c7")] := by
  have h1 : runWebui yarnEff pybabelEff fs
      = cleanVendor (pybabelEff (yarnEff fs))
        ++ copyImage (pybabelEff (yarnEff fs)) := by
    show copyVendor (cleanVendor (pybabelEff (yarnEff fs)))
        = cleanVendor (pybabelEff (yarnEff fs))
          ++ copyImage (pybabelEff (yarnEff fs))
    unfold copyVendor
    rw [copyImage_cleanVendor]
  refine ⟨h1, ?_, by decide⟩
  rw [h1, List.filter_append]
  have h2 : (cleanVendor (pybabelEff (yarnEff fs))).filter isVendorPath
      = [] := filter_filter_not isVendorPath (pybabelEff (yarnEff fs))
  have h3 : (copyImage (pybabelEff (yarnEff fs))).filter isVendorPath
      = copyImage (pybabelEff (yarnEff fs)) :=
    List.filter_eq_self.mpr fun a ha =>
      isVendorPath_copyImage (pybabelEff (yarnEff fs)) a ha
  rw [h2, h3, List.nil_append]

end MydojoGrunt

namespace MydojoSite

/-- A rendered HTML node: an element with tag name, class list, other
attributes and children, or a text fragment. -/
inductive HNode where
  | el (tag : String) (classes : List String)
       (attrs : List (String × String)) (children : List HNode)
  | text (s : String)

/-- The class list of a node (empty for text). -/
def HNode.classList : HNode → List String
  | HNode.el _ cs _ _ => cs
  | HNode.text _ => []

/-- The children of a node (none for text). -/
def HNode.childNodes : HNode → List HNode
  | HNode.el _ _ _ ch => ch
  | HNode.text _ => []

/-- The tag of a node (empty for text). -/
def HNode.tag : HNode → String
  | HNode.el t _ _ _ => t
  | HNode.text _ => ""

/-- All classes appearing on nodes of the tree up to the given element
depth; the renderer output below never exceeds depth six, so any larger
fuel collects every class of it. -/
def classesToDepth : Nat → HNode → List String
  | 0, _ => []
  | Nat.succ d, HNode.el _ cs _ ch => cs ++ ch.flatMap (classesToDepth d)
  | Nat.succ _, HNode.text _ => []

/-- Whether a node is a dropdown container element (the nested list that
holds a submenu's children). -/
def isDropdownContainer (n : HNode) : Bool :=
  n.classList.contains "dropdown-menu"

/-- The dropdown containers among a node's direct children. -/
def directContainers (n : HNode) : List HNode :=
  n.childNodes.filter isDropdownContainer

/-- A main-menu item as the navbar macro reads it: identifier, type
(submenu or anything else for a leaf), optional title, icon and legend,
responsive-title flag, url, the active predicate over the current request,
and the sub-entries. -/
inductive MenuItem where
  | mk (ident : String) (type : String) (title icon legend : Option String)
       (resptitle : Bool) (url : String) (is_active : String → Bool)
       (entries : List MenuItem)

def MenuItem.ident : MenuItem → String
  | MenuItem.mk i _ _ _ _ _ _ _ _ => i

def MenuItem.type : MenuItem → String
  | MenuItem.mk _ t _ _ _ _ _ _ _ => t

def MenuItem.get_title : MenuItem → Option String
  | MenuItem.mk _ _ ti _ _ _ _ _ _ => ti

def MenuItem.get_icon : MenuItem → Option String
  | MenuItem.mk _ _ _ ic _ _ _ _ _ => ic

def MenuItem.get_legend : MenuItem → Option String
  | MenuItem.mk _ _ _ _ le _ _ _ _ => le

def MenuItem.resptitle : MenuItem → Bool
  | MenuItem.mk _ _ _ _ _ rt _ _ _ => rt

def MenuItem.get_url : MenuItem → String
  | MenuItem.mk _ _ _ _ _ _ u _ _ => u

def MenuItem.is_active : MenuItem → String → Bool
  | MenuItem.mk _ _ _ _ _ _ _ a _ => a

def MenuItem.get_entries : MenuItem → List MenuItem
  | MenuItem.mk _ _ _ _ _ _ _ _ es => es

/-- The same item with its sub-entries replaced. -/
def MenuItem.withEntries : MenuItem → List MenuItem → MenuItem
  | MenuItem.mk i t ti ic le rt u a _, es => MenuItem.mk i t ti ic le rt u a es

/-- Template truthiness of an optional string: missing and empty are both
falsy. -/
def truthy : Option String → Bool
  | none => false
  | some s => s ≠ ""

/-- The shared anchor body of the navbar macro: optional icon, optional
title (wrapped in a responsive span when resptitle is set), and the
screen-reader current marker when the item is active. -/
def navAnchorBody (getIcon : String → HNode) (req : String)
    (m : MenuItem) : List HNode :=
  (if truthy m.get_icon then [getIcon (m.get_icon.getD "")] else []) ++
  (if truthy m.get_title then
     (if m.resptitle then
        [HNode.el "span" ["d-none", "d-lg-inline"] []
          [HNode.text (m.get_title.getD "")]]
      else [HNode.text (m.get_title.getD "")])
   else []) ++
  (if m.is_active req then
     [HNode.el "span" ["sr-only"] [] [HNode.text "(current)"]]
   else [])

/-- A submenu sub-entry rendered inside the navbar dropdown container: a
dropdown-item anchor, marked active after its own predicate, whose href
collapses to the fragment anchor when active. Sub-entries are rendered by
this function only, which never reads their own entries. -/
def renderNavSub (getIcon : String → HNode) (req : String)
    (s : MenuItem) : HNode :=
  HNode.el "a"
    ("dropdown-item" :: (if s.is_active req then ["active"] else []))
    [("href", if s.is_active req then "#" else s.get_url)]
    (navAnchorBody getIcon req s)

/-- One top-level item of the main navbar: the li gets class dropdown for
a submenu-typed item, otherwise class active exactly when the item is
active; a submenu-typed item gets a dropdown-toggle anchor and, when its
entries list is non-empty, a dropdown container holding the rendered
sub-entries; any other item gets a single nav-link anchor. -/
def renderNavItem (getIcon : String → HNode) (req : String)
    (m : MenuItem) : HNode :=
  let anchor :=
    if m.type = "submenu" then
      HNode.el "a" ["nav-link", "dropdown-toggle"]
        [("href", "#"), ("id", "navbar-dropdown-" ++ m.ident),
         ("role", "button"), ("data-toggle", "dropdown")]
        (navAnchorBody getIcon req m)
    else
      HNode.el "a" ["nav-link"]
        ([("href", if m.is_active req then "#" else m.get_url)] ++
         (if truthy m.get_legend then
            [("data-toggle", "tooltip"), ("title", m.get_legend.getD "")]
          else []))
        (navAnchorBody getIcon req m)
  let container :=
    if m.type = "submenu" && !m.get_entries.isEmpty then
      [HNode.el "div" ["dropdown-menu"]
        [("aria-labelledby", "navbar-dropdown-" ++ m.ident)]
        (m.get_entries.map (renderNavSub getIcon req))]
    else []
  HNode.el "li"
    ("nav-item" :: (if m.type = "submenu" then ["dropdown"]
                    else if m.is_active req then ["active"] else []))
    []
    (anchor :: container)

/-- The render_navbar_main macro: the navbar list over the menu entries. -/
def render_navbar_main (getIcon : String → HNode) (req : String)
    (menu : List MenuItem) : HNode :=
  HNode.el "ul" ["navbar-nav", "mr-auto"] []
    (menu.map (renderNavItem getIcon req))

/-- An action-menu item as the action macro reads it: its getters take
the optional context item. -/
inductive AMenuItem where
  | mk (type : String) (resptitle : Bool) (align_right : Bool)
       (title icon legend : Option String → Option String)
       (url : Option String → String)
       (entries : Option String → List AMenuItem)

def AMenuItem.type : AMenuItem → String
  | AMenuItem.mk t _ _ _ _ _ _ _ => t

def AMenuItem.resptitle : AMenuItem → Bool
  | AMenuItem.mk _ rt _ _ _ _ _ _ => rt

def AMenuItem.align_right : AMenuItem → Bool
  | AMenuItem.mk _ _ ar _ _ _ _ _ => ar

def AMenuItem.get_title : AMenuItem → Option String → Option String
  | AMenuItem.mk _ _ _ ti _ _ _ _ => ti

def AMenuItem.get_icon : AMenuItem → Option String → Option String
  | AMenuItem.mk _ _ _ _ ic _ _ _ => ic

def AMenuItem.get_legend : AMenuItem → Option String → Option String
  | AMenuItem.mk _ _ _ _ _ le _ _ => le

def AMenuItem.get_url : AMenuItem → Option String → String
  | AMenuItem.mk _ _ _ _ _ _ u _ => u

def AMenuItem.get_entries : AMenuItem → Option String → List AMenuItem
  | AMenuItem.mk _ _ _ _ _ _ _ es => es

/-- An action menu: its entries also depend on the context item. -/
structure ActionMenu where
  get_entries : Option String → List AMenuItem

/-- The icon part of an action entry. -/
def actionIconPart (getIcon : String → HNode) (ctx : Option String)
    (m : AMenuItem) : List HNode :=
  if truthy (m.get_icon ctx) then [getIcon ((m.get_icon ctx).getD "")]
  else []

/-- The title part of an action entry: wrapped in a hidden-sm span when
resptitle is set. -/
def actionTitlePart (ctx : Option String) (m : AMenuItem) : List HNode :=
  if truthy (m.get_title ctx) then
    (if m.resptitle then
       [HNode.el "span" ["hidden-sm"] []
         [HNode.text ((m.get_title ctx).getD "")]]
     else [HNode.text ((m.get_title ctx).getD "")])
  else []

/-- The tooltip attributes of an action entry, present when a legend is
set. -/
def actionLegendAttrs (ctx : Option String)
    (m : AMenuItem) : List (String × String) :=
  if truthy (m.get_legend ctx) then
    [("data-toggle", "tooltip"), ("title", (m.get_legend ctx).getD "")]
  else []

/-- A sub-entry of an action submenu: a plain dropdown-item link. -/
def renderActionSub (getIcon : String → HNode) (ctx : Option String)
    (s : AMenuItem) : HNode :=
  HNode.el "a" ["dropdown-item"]
    (("href", s.get_url ctx) :: actionLegendAttrs ctx s)
    (actionIconPart getIcon ctx s ++ actionTitlePart ctx s)

/-- One entry of the action toolbar: a submenu-typed entry yields the
dropdown toggle button and, unconditionally, the ul dropdown container
with the rendered sub-entries; any other entry yields a single button
link. -/
def renderActionItem (getIcon : String → HNode) (ctx : Option String)
    (m : AMenuItem) : List HNode :=
  if m.type = "submenu" then
    [HNode.el "a" ["btn", "btn-secondary", "btn-sm", "dropdown-toggle"]
       [("data-toggle", "dropdown"), ("role", "button"), ("href", "#")]
       [HNode.el "span" [] (actionLegendAttrs ctx m)
         (actionIconPart getIcon ctx m ++ actionTitlePart ctx m ++
          [HNode.el "span" ["caret"] [] []])],
     HNode.el "ul"
       ("dropdown-menu" ::
         (if m.align_right then ["dropdown-menu-right"] else []))
       []
       ((m.get_entries ctx).map (renderActionSub getIcon ctx))]
  else
    [HNode.el "a" ["btn", "btn-secondary", "btn-sm"]
       (("role", "button") :: ("href", m.get_url ctx)
         :: actionLegendAttrs ctx m)
       (actionIconPart getIcon ctx m ++ actionTitlePart ctx m)]

/-- The render_menu_actions macro: nothing without a menu or with an empty
entry list, otherwise the toolbar holding the button group of rendered
entries. -/
def render_menu_actions (getIcon : String → HNode)
    (action_menu : Option ActionMenu) (context_item : Option String)
    (cssclass : String) : List HNode :=
  match action_menu with
  | none => []
  | some menu =>
    let menu_item_list := menu.get_entries context_item
    if menu_item_list.isEmpty then []
    else
      [HNode.el "div"
        ("btn-toolbar" :: (if cssclass ≠ "" then [cssclass] else []))
        [("role", "toolbar")]
        [HNode.el "div" ["btn-group", "btn-group-sm"] [("role", "group")]
          (menu_item_list.flatMap (renderActionItem getIcon context_item))]]

end MydojoSite

namespace MydojoSite

/-- An icon renderer for concrete examples: plain text, no markup. -/
def gI0 : String → HNode := fun s => HNode.text s

/-- A leaf sub-entry used in concrete examples. -/
def subItem0 : MenuItem :=
  MenuItem.mk "sub" "link" (some "Sub") none none false "/sub"
    (fun _ => false) []

/-- A submenu-typed top-level entry whose active predicate always holds,
used in concrete examples. -/
def item0 : MenuItem :=
  MenuItem.mk "dash" "submenu" (some "Dash") none none false "/dash"
    (fun _ => true) [subItem0]

/-- A leaf top-level entry used in concrete examples. -/
def leaf0 : MenuItem :=
  MenuItem.mk "home" "link" (some "Home") none none false "/"
    (fun r => r = "/") []

/-- An action submenu entry with an empty sub-entry list, used in
concrete examples. -/
def aSub0 : AMenuItem :=
  AMenuItem.mk "submenu" false false (fun _ => some "More") (fun _ => none)
    (fun _ => none) (fun _ => "#") (fun _ => [])

/-- An action menu holding only aSub0. -/
def am0 : ActionMenu := ⟨fun _ => [aSub0]⟩

/-- C1 counterexample: a submenu-typed entry whose active predicate holds
for the current request renders with no active class anywhere in its
subtree (its li gets the dropdown class instead), refuting that an entry
matching the current request is always marked active regardless of its
type. -/
theorem navbar_active_submenu_missed :
    item0.is_active "/dash" = true
    ∧ (classesToDepth 16 (renderNavItem gI0 "/dash" item0)).contains
        "active" = false := by
  constructor
  · rfl
  · decide

/-- C1 (amended): the navbar marks exactly the leaf-typed entries whose
active predicate holds with the active class on their li, and exactly the
active sub-entries with the active class on their dropdown-item anchor; a
submenu-typed top-level entry never carries the active class (its li gets
dropdown and its toggle anchor carries none), even when its own predicate
holds. -/
theorem navbar_active_class_exact (getIcon : String → HNode) (req : String)
    (m : MenuItem) :
    (renderNavItem getIcon req m).classList.contains "active"
      = (m.type != "submenu" && m.is_active req)
    ∧ ((renderNavItem getIcon req m).childNodes.headD
        (HNode.text "")).classList.contains "active" = false
    ∧ (∀ s, (renderNavSub getIcon req s).classList.contains "active"
        = s.is_active req) := by
  refine ⟨?_, ?_, ?_⟩
  · by_cases h1 : m.type = "submenu"
    · simp [renderNavItem, HNode.classList, h1]
    · by_cases h2 : m.is_active req = true
      · simp [renderNavItem, HNode.classList, h1, h2]
      · simp [renderNavItem, HNode.classList, h1, h2]
  · by_cases h1 : m.type = "submenu"
    · simp [renderNavItem, HNode.childNodes, HNode.classList, h1]
    · simp [renderNavItem, HNode.childNodes, HNode.classList, h1]
  · intro s
    by_cases h : s.is_active req = true
    · simp [renderNavSub, HNode.classList, h]
    · simp [renderNavSub, HNode.classList, h]

theorem navItem_directContainers (getIcon : String → HNode) (req : String)
    (m : MenuItem) :
    directContainers (renderNavItem getIcon req m)
      = if m.type = "submenu" && !m.get_entries.isEmpty then
          [HNode.el "div" ["dropdown-menu"]
            [("aria-labelledby", "navbar-dropdown-" ++ m.ident)]
            (m.get_entries.map (renderNavSub getIcon req))]
        else [] := by
  by_cases h1 : m.type = "submenu"
  · by_cases h2 : m.get_entries.isEmpty = true
    · simp [renderNavItem, directContainers, HNode.childNodes,
        isDropdownContainer, HNode.classList, h1, h2]
    · simp [renderNavItem, directContainers, HNode.childNodes,
        isDropdownContainer, HNode.classList, h1, h2]
  · simp [renderNavItem, directContainers, HNode.childNodes,
      isDropdownContainer, HNode.classList, h1]

/-- C2 (amended): in the main navbar a submenu's dropdown container is
emitted exactly when the submenu-typed entry has a non-empty entries
list; in the action macro the whole toolbar is suppressed when the
top-level entry list is empty, but a submenu-typed entry emits its ul
dropdown container unconditionally, with an empty child list when its
entries are empty. -/
theorem menus_container_emission (getIcon : String → HNode) (req : String)
    (m : MenuItem) (am : ActionMenu) (ctx : Option String)
    (cssclass : String) (a : AMenuItem) :
    (directContainers (renderNavItem getIcon req m)
      = if m.type = "submenu" && !m.get_entries.isEmpty then
          [HNode.el "div" ["dropdown-menu"]
            [("aria-labelledby", "navbar-dropdown-" ++ m.ident)]
            (m.get_entries.map (renderNavSub getIcon req))]
        else [])
    ∧ (am.get_entries ctx = [] →
        render_menu_actions getIcon (some am) ctx cssclass = [])
    ∧ ((renderActionItem getIcon ctx a).filter isDropdownContainer
      = if a.type = "submenu" then
          [HNode.el "ul"
            ("dropdown-menu" ::
              (if a.align_right then ["dropdown-menu-right"] else []))
            []
            ((a.get_entries ctx).map (renderActionSub getIcon ctx))]
        else []) := by
  refine ⟨navItem_directContainers getIcon req m, ?_, ?_⟩
  · intro h
    simp [render_menu_actions, h]
  · by_cases h : a.type = "submenu"
    · simp [renderActionItem, isDropdownContainer, HNode.classList, h]
    · simp [renderActionItem, isDropdownContainer, HNode.classList, h]

/-- Witness for C2 on concrete menus: an empty action menu renders
nothing, an empty-entried navbar submenu gets no container, and the
action submenu with empty entries still yields its ul container. -/
theorem menus_container_emission_witness :
    render_menu_actions gI0 (some (ActionMenu.mk fun _ => [])) none "" = []
    ∧ directContainers
        (renderNavItem gI0 "/p" (item0.withEntries [])) = []
    ∧ (renderActionItem gI0 none aSub0).filter isDropdownContainer
      = [HNode.el "ul" ["dropdown-menu"] [] []] := by
  refine ⟨(menus_container_emission gI0 "/p" item0
      (ActionMenu.mk fun _ => []) none "" aSub0).2.1 rfl, ?_, ?_⟩
  · have h := (menus_container_emission gI0 "/p" (item0.withEntries [])
      (ActionMenu.mk fun _ => []) none "" aSub0).1
    rw [h]
    rfl
  · have h := (menus_container_emission gI0 "/p" item0
      (ActionMenu.mk fun _ => []) none "" aSub0).2.2
    rw [h]
    rfl

/-- C2 counterexample: in the action-menu macro a submenu entry with an
empty sub-entry list still emits its dropdown container: the rendered
button group ends with an empty ul of class dropdown-menu. -/
theorem action_submenu_empty_container_emitted :
    aSub0.get_entries none = []
    ∧ (((render_menu_actions gI0 (some am0) none "").headD
          (HNode.text "")).childNodes.headD
          (HNode.text "")).childNodes.getLastD (HNode.text "")
        = HNode.el "ul" ["dropdown-menu"] [] []
    ∧ isDropdownContainer (HNode.el "ul" ["dropdown-menu"] [] [])
        = true := by
  refine ⟨rfl, rfl, by decide⟩

theorem anchorBody_no_container (getIcon : String → HNode) (req : String)
    (m : MenuItem)
    (hIcon : ∀ str, isDropdownContainer (getIcon str) = false) :
    (navAnchorBody getIcon req m).filter isDropdownContainer = [] := by
  unfold navAnchorBody
  rw [List.filter_append, List.filter_append]
  have h1 : ((if truthy m.get_icon then [getIcon (m.get_icon.getD "")]
      else []) : List HNode).filter isDropdownContainer = [] := by
    by_cases h : truthy m.get_icon = true
    · simp [h, hIcon]
    · simp [h]
  have h2 : ((if truthy m.get_title then
      (if m.resptitle then
        [HNode.el "span" ["d-none", "d-lg-inline"] []
          [HNode.text (m.get_title.getD "")]]
       else [HNode.text (m.get_title.getD "")])
      else []) : List HNode).filter isDropdownContainer = [] := by
    by_cases h : truthy m.get_title = true
    · by_cases hr : m.resptitle = true
      · simp [h, hr, isDropdownContainer, HNode.classList]
      · simp [h, hr, isDropdownContainer, HNode.classList]
    · simp [h]
  have h3 : ((if m.is_active req then
      [HNode.el "span" ["sr-only"] [] [HNode.text "(current)"]]
      else []) : List HNode).filter isDropdownContainer = [] := by
    by_cases h : m.is_active req = true
    · simp [h, isDropdownContainer, HNode.classList]
    · simp [h]
  rw [h1, h2, h3]
  rfl

/-- C6: the navbar renders a two-level tree: an entry whose type is not
submenu yields a single anchor link and no dropdown container, an entry of
type submenu yields a dropdown-toggle anchor and its containers hold
exactly the rendered sub-entries; sub-entries render independently of
their own entries (they are never expanded as submenus) and each is a
plain anchor link that is not a container and holds none, provided the
icon helper emits no container. -/
theorem navbar_menu_tree_shape (getIcon : String → HNode) (req : String)
    (hIcon : ∀ str, isDropdownContainer (getIcon str) = false)
    (m : MenuItem) :
    (m.type ≠ "submenu" →
      (renderNavItem getIcon req m).childNodes.length = 1
      ∧ directContainers (renderNavItem getIcon req m) = []
      ∧ ((renderNavItem getIcon req m).childNodes.headD
          (HNode.text "")).tag = "a")
    ∧ (m.type = "submenu" →
      ((renderNavItem getIcon req m).childNodes.headD
          (HNode.text "")).classList = ["nav-link", "dropdown-toggle"]
      ∧ ∀ c ∈ directContainers (renderNavItem getIcon req m),
          c.childNodes = m.get_entries.map (renderNavSub getIcon req))
    ∧ (∀ s es, renderNavSub getIcon req (s.withEntries es)
        = renderNavSub getIcon req s)
    ∧ (∀ s, (renderNavSub getIcon req s).tag = "a"
        ∧ isDropdownContainer (renderNavSub getIcon req s) = false
        ∧ directContainers (renderNavSub getIcon req s) = []) := by
  refine ⟨?_, ?_, ?_, ?_⟩
  · intro h1
    refine ⟨?_, ?_, ?_⟩
    · simp [renderNavItem, HNode.childNodes, h1]
    · rw [navItem_directContainers]
      simp [h1]
    · simp [renderNavItem, HNode.childNodes, HNode.tag, h1]
  · intro h1
    refine ⟨?_, ?_⟩
    · simp [renderNavItem, HNode.childNodes, HNode.classList, h1]
    · intro c hc
      rw [navItem_directContainers] at hc
      by_cases h2 : m.get_entries.isEmpty = true
      · simp [h1, h2] at hc
      · simp [h1, h2] at hc
        rw [hc]
        rfl
  · intro s es
    cases s with
    | mk i t ti ic le rt u a entr => rfl
  · intro s
    refine ⟨rfl, ?_, ?_⟩
    · by_cases h : s.is_active req = true
      · simp [renderNavSub, isDropdownContainer, HNode.classList, h]
      · simp [renderNavSub, isDropdownContainer, HNode.classList, h]
    · show (navAnchorBody getIcon req s).filter isDropdownContainer = []
      exact anchorBody_no_container getIcon req s hIcon

/-- Witness for C6 on concrete entries: the leaf renders one anchor child
and no container, and the submenu entry's container holds its single
rendered sub-entry. -/
theorem navbar_menu_tree_shape_witness :
    (renderNavItem gI0 "/" leaf0).childNodes.length = 1
    ∧ directContainers (renderNavItem gI0 "/" leaf0) = []
    ∧ ∀ c ∈ directContainers (renderNavItem gI0 "/" item0),
        c.childNodes = [renderNavSub gI0 "/" subItem0] := by
  have h1 := (navbar_menu_tree_shape gI0 "/" (fun _ => rfl) leaf0).1
    (by decide)
  have h2 := ((navbar_menu_tree_shape gI0 "/" (fun _ => rfl) item0).2.1
    rfl).2
  exact ⟨h1.1, h1.2.1, h2⟩

end MydojoSite
